import Mathlib

/-!
Shallow embedding of the analytics pipeline of the moodle-analytics
repository, together with proofs checking the specification's claims
against it.

Conventions used throughout the embedding:
* a pandas DataFrame is a `List` of structure values, one per row, in row
  order;
* machine floats are modelled by `ℚ`; a float cell that pandas would fill
  with NaN (or ±inf) is modelled by `none : Option ℚ`;
* pandas `groupby` is modelled by taking the first-occurrence deduplicated
  list of keys and filtering the rows for each key (pandas sorts group keys,
  but no claim depends on the order of the produced rows);
* fallible library calls (sklearn estimators validating their input) are
  modelled with `Except`.
-/

/- ---------------------------------------------------------------- -/
/- Generic helpers                                                   -/
/- ---------------------------------------------------------------- -/

/-- Lowercase an ASCII letter, leave every other character unchanged.  This
models Python's `str.lower()` on the ASCII event names the pipeline works
with. -/
def asciiLowerChar (c : Char) : Char :=
  if 'A' ≤ c ∧ c ≤ 'Z' then Char.ofNat (c.toNat + 32) else c

/-- Decide whether `needle` occurs as a contiguous sublist of the second
argument.  Models Python's `needle in hay` on strings. -/
def subListOf (needle : List Char) : List Char → Bool
  | [] => needle.isEmpty
  | c :: rest => needle.isPrefixOf (c :: rest) || subListOf needle rest

/-- Model of Python's `needle in hay.lower()` for an already lowercase
`needle`. -/
def strContains (hay needle : String) : Bool :=
  subListOf needle.data (hay.data.map asciiLowerChar)

/-- Minimum of a list of rationals, `none` on the empty list (pandas
`Series.min()` of an empty series is NaN). -/
def qMin (l : List ℚ) : Option ℚ :=
  l.foldl (fun a x => match a with
    | none => some x
    | some m => some (if x < m then x else m)) none

/-- Maximum of a list of rationals, `none` on the empty list. -/
def qMax (l : List ℚ) : Option ℚ :=
  l.foldl (fun a x => match a with
    | none => some x
    | some m => some (if m < x then x else m)) none

/-- The list `[s, s+1, ..., s+n-1]`. -/
def natSeq (s : Nat) : Nat → List Nat
  | 0 => []
  | n + 1 => s :: natSeq (s + 1) n

/- ---------------------------------------------------------------- -/
/- Cleaning & enrichment: action categorization                      -/
/- ---------------------------------------------------------------- -/

/-- Embedding of `categorize_action` inside
`MoodleDataPreprocessor.clean_log_data` (src/src/preprocessing.py,
lines 26-36): substring tests applied in a fixed order, `viewed` first,
falling through to `"other"`. -/
def categorize_action (action : String) : String :=
  if strContains action "viewed" then "view"
  else if strContains action "submitted" then "submit"
  else if strContains action "created" then "create"
  else if strContains action "updated" then "update"
  else "other"

/-- Embedding of `categorize_action` inside
`SampleDataPreprocessor.preprocess_sample_logs` (src/data/preprocessing.py,
lines 37-45): same shape, but `created` is folded into the `"submit"`
category. -/
def categorize_action_sample (action : String) : String :=
  if strContains action "viewed" then "view"
  else if strContains action "submitted" || strContains action "created" then "submit"
  else if strContains action "updated" then "update"
  else "other"

/- ---------------------------------------------------------------- -/
/- Engagement metric builder                                         -/
/- ---------------------------------------------------------------- -/

/-- One cleaned activity-log row, as consumed by the engagement metric
builders: `id`, `userid`, `courseid`, the epoch timestamp `time_created`
(seconds) and the derived `action_category`. -/
structure LogRow where
  id : Nat
  userid : Nat
  courseid : Nat
  time_created : Int
  action_category : String
deriving DecidableEq

/-- Grouping key of `pd.Grouper(key='time_created', freq='D')` grouping:
(userid, courseid, calendar day of the timestamp).  The day bucket is the
floor of the epoch timestamp divided by 86400 seconds. -/
def engKey (r : LogRow) : Nat × Nat × Int :=
  (r.userid, r.courseid, Int.fdiv r.time_created 86400)

/-- One row of the engagement-metrics table produced by
`create_engagement_metrics`. -/
structure EngRow where
  userid : Nat
  courseid : Nat
  bucket : Int
  total_actions : Nat
  submissions : Nat
  active_minutes : Nat
deriving DecidableEq

/-- One aggregated group row of `create_engagement_metrics` for the
grouping key `k`. -/
def engRowOf (logs : List LogRow) (k : Nat × Nat × Int) : EngRow :=
  let grp := logs.filter fun r => decide (engKey r = k)
  { userid := k.1
    courseid := k.2.1
    bucket := k.2.2
    total_actions := grp.length
    submissions := (grp.filter fun r => decide (r.action_category = "submit")).length
    active_minutes := grp.length * 2 }

/-- Embedding of `MoodleDataPreprocessor.create_engagement_metrics`
(src/src/preprocessing.py, lines 104-116): group the log rows by
(userid, courseid, day bucket); per group count the rows (`total_actions`),
count the rows whose `action_category` equals `"submit"` (`submissions`),
and set `active_minutes = total_actions * 2`. -/
def create_engagement_metrics (logs : List LogRow) : List EngRow :=
  ((logs.map engKey).dedup).map (engRowOf logs)

/-- One row of the sample engagement-metrics table produced by
`create_sample_engagement_metrics`, which additionally carries
`active_days` and an `engagement_score`. -/
structure SampleEngRow where
  userid : Nat
  courseid : Nat
  bucket : Int
  total_actions : Nat
  submissions : Nat
  active_days : Nat
  active_minutes : Nat
  engagement_score : ℚ
deriving DecidableEq

/-- Embedding of `SampleDataPreprocessor.create_sample_engagement_metrics`
(src/data/preprocessing.py, lines 74-99): same grouping and counts as
`create_engagement_metrics`, plus `active_days` (number of distinct
`time_created` values in the group) and the alternate weighting
`engagement_score = total_actions*0.4 + submissions*0.4 +
active_minutes*0.2`. -/
def create_sample_engagement_metrics (logs : List LogRow) : List SampleEngRow :=
  ((logs.map engKey).dedup).map fun k =>
    let grp := logs.filter fun r => decide (engKey r = k)
    let ta := grp.length
    let sub := (grp.filter fun r => decide (r.action_category = "submit")).length
    let am := ta * 2
    { userid := k.1
      courseid := k.2.1
      bucket := k.2.2
      total_actions := ta
      submissions := sub
      active_days := ((grp.map (·.time_created)).dedup).length
      active_minutes := am
      engagement_score := (ta : ℚ) * 0.4 + (sub : ℚ) * 0.4 + (am : ℚ) * 0.2 }

/- ---------------------------------------------------------------- -/
/- Engagement scoring and min-max normalization                      -/
/- ---------------------------------------------------------------- -/

/-- One row of the per-(user, course) score table produced by
`calculate_student_engagement_scores`.  The source also carries a
`std_actions` column (sample standard deviation of `total_actions`); it is
a square root, is used by no later computation and no claim, and is not
carried in the embedding. -/
structure ScoreRow where
  userid : Nat
  courseid : Nat
  total_actions : ℚ
  avg_actions : ℚ
  total_submissions : ℚ
  total_active_minutes : ℚ
  engagement_score : ℚ
  engagement_score_normalized : Option ℚ
deriving DecidableEq

/-- Aggregation pass of `calculate_student_engagement_scores`
(src/src/analysis.py, lines 14-28): group the engagement rows by
(userid, courseid), sum `total_actions`, `submissions` and
`active_minutes`, and weight the sums `0.3 / 0.4 / 0.3` into
`engagement_score`.  The normalized column is filled by the second pass
below. -/
def scoreBase (rows : List EngRow) : List ScoreRow :=
  ((rows.map fun r => (r.userid, r.courseid)).dedup).map fun k =>
    let grp := rows.filter fun r => decide ((r.userid, r.courseid) = k)
    let ta : ℚ := (grp.map fun r => (r.total_actions : ℚ)).sum
    let ts : ℚ := (grp.map fun r => (r.submissions : ℚ)).sum
    let tm : ℚ := (grp.map fun r => (r.active_minutes : ℚ)).sum
    { userid := k.1
      courseid := k.2
      total_actions := ta
      avg_actions := ta / (grp.length : ℚ)
      total_submissions := ts
      total_active_minutes := tm
      engagement_score := ta * 0.3 + ts * 0.4 + tm * 0.3
      engagement_score_normalized := (none : Option ℚ) }

/-- Embedding of `MoodleAnalytics.calculate_student_engagement_scores`
(src/src/analysis.py, lines 12-36): the aggregation pass above followed by
min-max normalization of the score column to 0-100.  The source computes
`(score - min) / (max - min) * 100` with no guard: when the maximum
equals the minimum every entry is `0/0`, which pandas evaluates to NaN,
modelled here as `none`. -/
def calculate_student_engagement_scores (rows : List EngRow) : List ScoreRow :=
  let base := scoreBase rows
  let scores := base.map (·.engagement_score)
  match qMin scores, qMax scores with
  | some lo, some hi =>
      base.map fun b =>
        { b with engagement_score_normalized :=
            if hi = lo then none
            else some ((b.engagement_score - lo) / (hi - lo) * 100) }
  | _, _ => base

/- ---------------------------------------------------------------- -/
/- Quiz performance processor                                        -/
/- ---------------------------------------------------------------- -/

/-- One raw quiz-attempt row: user, quiz and the epoch start/finish
timestamps. -/
structure QuizAttemptRow where
  userid : Nat
  quiz : Nat
  timestart : Int
  timefinish : Int
deriving DecidableEq

/-- Grouping key of the `groupby(['userid', 'quiz'])` calls. -/
def quizKey (r : QuizAttemptRow) : Nat × Nat := (r.userid, r.quiz)

/-- Number of rows of `l` whose (userid, quiz) key is `k`. -/
def keyCount (l : List QuizAttemptRow) (k : Nat × Nat) : Nat :=
  (l.filter fun r => decide (quizKey r = k)).length

/-- Pair every row with its pandas `groupby(['userid', 'quiz']).cumcount() + 1`
value: one plus the number of earlier rows (in row order) sharing its key.
`seen` is the already-numbered prefix. -/
def cumcountFrom : List QuizAttemptRow → List QuizAttemptRow → List (QuizAttemptRow × Nat)
  | _, [] => []
  | seen, r :: rest =>
      (r, keyCount seen (quizKey r) + 1) :: cumcountFrom (seen ++ [r]) rest

/-- One processed quiz-attempt row as produced by `process_quiz_data`. -/
structure ProcessedQuizRow where
  row : QuizAttemptRow
  duration_minutes : ℚ
  attempt_number : Nat
  is_first_attempt : Bool
  is_last_attempt : Bool
deriving DecidableEq

/-- One output row of `process_quiz_data` for the numbered input row `p`:
`duration_minutes` is the start-to-finish span in minutes,
`is_first_attempt` marks `attempt_number == 1` and `is_last_attempt`
marks the rows reaching the per-(userid, quiz) maximum of
`attempt_number` over the whole numbered table (`transform('max')`). -/
def procRowOf (numbered : List (QuizAttemptRow × Nat)) (p : QuizAttemptRow × Nat) :
    ProcessedQuizRow :=
  let groupMax :=
    (((numbered.filter fun q => decide (quizKey q.1 = quizKey p.1)).map Prod.snd).foldr max 0)
  { row := p.1
    duration_minutes := ((p.1.timefinish - p.1.timestart : Int) : ℚ) / 60
    attempt_number := p.2
    is_first_attempt := decide (p.2 = 1)
    is_last_attempt := decide (p.2 = groupMax) }

/-- Embedding of `MoodleDataPreprocessor.process_quiz_data`
(src/src/preprocessing.py, lines 42-60): number every row with the
per-(userid, quiz) cumulative count plus one in row order (the source
applies `cumcount` to the rows as given, without sorting them by
`timestart`) and derive the duration and first/last-attempt flags. -/
def process_quiz_data (df : List QuizAttemptRow) : List ProcessedQuizRow :=
  (cumcountFrom [] df).map (procRowOf (cumcountFrom [] df))

/-- The processed rows of one (userid, quiz) group. -/
def quizGroup (df : List QuizAttemptRow) (k : Nat × Nat) : List ProcessedQuizRow :=
  (process_quiz_data df).filter fun p => decide (quizKey p.row = k)

/- ---------------------------------------------------------------- -/
/- Forum thread / network analyzer                                   -/
/- ---------------------------------------------------------------- -/

/-- One forum-post row: post id, author, parent post id (0 for a
discussion root), creation epoch timestamp and the `is_reply` column the
network analyzer reads. -/
structure ForumPostRow where
  id : Nat
  userid : Nat
  parent : Nat
  created : Int
  is_reply : Bool
deriving DecidableEq

/-- Resolve a parent id to the first matching post, as
`df[df['id'] == row['parent']].iloc[0]` does. -/
def findParent (df : List ForumPostRow) (pid : Nat) : Option ForumPostRow :=
  df.find? fun p => decide (p.id = pid)

/-- Fold step keeping the earliest-created row seen so far, the first such
row on ties (pandas `nsmallest(1, 'created')` keeps the first of equals). -/
def pickEarliest : Option ForumPostRow → List ForumPostRow → Option ForumPostRow
  | acc, [] => acc
  | none, p :: rest => pickEarliest (some p) rest
  | some q, p :: rest => pickEarliest (some (if p.created < q.created then p else q)) rest

/-- Earliest direct child of post `rid`, `none` when it has no children. -/
def firstReply (df : List ForumPostRow) (rid : Nat) : Option ForumPostRow :=
  pickEarliest none (df.filter fun p => decide (p.parent = rid))

/-- Embedding of one iteration of
`MoodleDataPreprocessor._calculate_reply_times`
(src/src/preprocessing.py, lines 81-102) for the row `row` of the post set
`df`: a reply is matched against its parent anywhere in the full post set
(`none` when the parent id resolves to no post); a root post is paired
with its earliest direct child (`none` when it has none).  The result is in
hours. -/
def hoursToFirstReply (df : List ForumPostRow) (row : ForumPostRow) : Option ℚ :=
  if 0 < row.parent then
    match findParent df row.parent with
    | some p => some (((row.created - p.created : Int) : ℚ) / 3600)
    | none => none
  else
    match firstReply df row.id with
    | some r => some (((r.created - row.created : Int) : ℚ) / 3600)
    | none => none

/-- Embedding of `_calculate_reply_times` itself: one value per row, in row
order. -/
def calculate_reply_times (df : List ForumPostRow) : List (Option ℚ) :=
  df.map (hoursToFirstReply df)

/-- Directed reply edges before deduplication, one per row passing the
`row['is_reply'] and row['parent'] > 0` guard of
`MoodleAnalytics.analyze_forum_interaction_network`
(src/src/analysis.py, lines 117-122) whose parent id resolves: the edge
runs reply author → parent author, with no check that the two authors
differ. -/
def rawReplyEdges (df : List ForumPostRow) : List (Nat × Nat) :=
  df.filterMap fun row =>
    if row.is_reply = true ∧ 0 < row.parent then
      (findParent df row.parent).map fun p => (row.userid, p.userid)
    else none

/-- Edge set of the `networkx.DiGraph` built by
`analyze_forum_interaction_network`: adding an existing edge is a no-op,
so the edge set is the deduplicated raw edge list. -/
def forumEdges (df : List ForumPostRow) : List (Nat × Nat) :=
  (rawReplyEdges df).dedup

/- ---------------------------------------------------------------- -/
/- Risk engine                                                       -/
/- ---------------------------------------------------------------- -/

/-- Pandas `Series.rank(pct=True) * 100` of value `s` within the
population `xs` (rank method `'average'`: tied values receive the mean of
the ranks they occupy). -/
def pctRank (xs : List ℚ) (s : ℚ) : ℚ :=
  ((((xs.filter fun y => decide (y < s)).length : ℚ) +
      (((xs.filter fun y => decide (y = s)).length : ℚ) + 1) / 2) / (xs.length : ℚ)) * 100

/-- Embedding of the
`pd.cut(..., bins=[0, 25, 50, 75, 100], labels=[...], include_lowest=True)`
call of `generate_sample_risk_analysis` (src/data/preprocessing.py,
lines 174-179): right-inclusive bins, the lowest left edge included,
values outside [0, 100] mapped to NaN (`none`). -/
def riskCut (p : ℚ) : Option String :=
  if p < 0 then none
  else if p ≤ 25 then some "High Risk"
  else if p ≤ 50 then some "Medium Risk"
  else if p ≤ 75 then some "Low Risk"
  else if p ≤ 100 then some "Very Low Risk"
  else none

/-- Per-(userid, courseid) aggregation at the head of
`generate_sample_risk_analysis` (src/data/preprocessing.py,
lines 163-168): mean of `engagement_score`, sums of `total_actions`,
`submissions` and `active_minutes`. -/
def riskGroups (rows : List SampleEngRow) :
    List ((Nat × Nat) × ℚ × ℚ × ℚ × ℚ) :=
  ((rows.map fun r => (r.userid, r.courseid)).dedup).map fun k =>
    let grp := rows.filter fun r => decide ((r.userid, r.courseid) = k)
    (k, (grp.map (·.engagement_score)).sum / (grp.length : ℚ),
      (grp.map fun r => (r.total_actions : ℚ)).sum,
      (grp.map fun r => (r.submissions : ℚ)).sum,
      (grp.map fun r => (r.active_minutes : ℚ)).sum)

/-- The population of group-mean engagement scores the percentile is
ranked within. -/
def riskScores (rows : List SampleEngRow) : List ℚ :=
  (riskGroups rows).map fun g => g.2.1

/-- One row of the risk table produced by `generate_sample_risk_analysis`
(the optional grade-risk merge, driven by a second quiz table, is a
separate code path and is not consumed by any claim about this
function). -/
structure RiskRow where
  userid : Nat
  courseid : Nat
  engagement_score : ℚ
  total_actions : ℚ
  submissions : ℚ
  active_minutes : ℚ
  engagement_percentile : ℚ
  risk_level : Option String
deriving DecidableEq

/-- Embedding of `SampleDataPreprocessor.generate_sample_risk_analysis`
(src/data/preprocessing.py, lines 160-179, `quiz_df=None` path): group by
(userid, courseid), average the engagement score, rank the averages as
percentiles (ties averaged) and cut them into the four risk tiers. -/
def generate_sample_risk_analysis (rows : List SampleEngRow) : List RiskRow :=
  (riskGroups rows).map fun g =>
    { userid := g.1.1
      courseid := g.1.2
      engagement_score := g.2.1
      total_actions := g.2.2.1
      submissions := g.2.2.2.1
      active_minutes := g.2.2.2.2
      engagement_percentile := pctRank (riskScores rows) g.2.1
      risk_level := riskCut (pctRank (riskScores rows) g.2.1) }

/- ---------------------------------------------------------------- -/
/- Clustering engine                                                 -/
/- ---------------------------------------------------------------- -/

/-- One behavioural input row of `cluster_students_by_behavior`: user,
day-of-week label and action count. -/
structure BehaviorRow where
  userid : Nat
  day_of_week : String
  total_actions : Nat
deriving DecidableEq

/-- The `pivot_table(index='userid', columns='day_of_week',
values='total_actions', aggfunc='sum', fill_value=0)` feature matrix: one
row per distinct user, one column per distinct day label, cells the summed
action counts (0 when the user has no row for that day). -/
def pivotFeatures (rows : List BehaviorRow) : List (Nat × List ℚ) :=
  let users := (rows.map (·.userid)).dedup
  let days := (rows.map (·.day_of_week)).dedup
  users.map fun u =>
    (u, days.map fun d =>
      ((rows.filter fun r => decide (r.userid = u ∧ r.day_of_week = d)).map
        fun r => (r.total_actions : ℚ)).sum)

/-- Embedding of `MoodleAnalytics.cluster_students_by_behavior`
(src/src/analysis.py, lines 79-103): the pivot into per-user features and
the input validation of the sklearn calls it then makes —
`StandardScaler.fit_transform` raises `ValueError` on an empty sample set
and `KMeans(n_clusters).fit_predict` raises when there are fewer samples
than clusters.  The k-means labels themselves (a seeded randomized
library fit) are not modelled; on success the function returns the
feature matrix the estimator is fit to. -/
def cluster_students_by_behavior (rows : List BehaviorRow) (n_clusters : Nat) :
    Except String (List (Nat × List ℚ)) :=
  let features := pivotFeatures rows
  if features.length = 0 then
    Except.error "Found array with 0 sample(s) while a minimum of 1 is required"
  else if features.length < n_clusters then
    Except.error "n_samples should be >= n_clusters"
  else
    Except.ok features

/- ---------------------------------------------------------------- -/
/- Course/completion aggregation in the dashboard                    -/
/- ---------------------------------------------------------------- -/

/-- One course summary row as read by `show_course_analytics`
(src/dashboard/app.py). -/
structure CourseRow where
  fullname : String
  enrolled_users : ℚ
  completions : ℚ
deriving DecidableEq

/-- Per-course term of the average-completion-rate metric
(src/dashboard/app.py, line 263): `enrolled_users` is first replaced by
NaN when it is 0, so a zero-enrollment course contributes NaN (`none`)
rather than a number. -/
def courseCompletionRatio (c : CourseRow) : Option ℚ :=
  if c.enrolled_users = 0 then none else some (c.completions / c.enrolled_users)

/-- The displayed average completion rate (src/dashboard/app.py,
lines 263-264): mean of the per-course ratios with NaN entries skipped,
times 100, and 0 when the mean itself is NaN (no course with nonzero
enrollment). -/
def avgCompletionRate (courses : List CourseRow) : ℚ :=
  let vals := courses.filterMap courseCompletionRatio
  if vals.length = 0 then 0 else vals.sum / (vals.length : ℚ) * 100

/-- Per-course completion-rate column of the top-courses table
(src/dashboard/app.py, line 282): a raw `completions / enrolled_users *
100` with no replacement, so a zero-enrollment course produces a
non-finite float — NaN for `0/0`, ±inf otherwise — modelled as `none`.
The final display rounding to one decimal is presentation and is not
modelled. -/
def topCourseCompletionRate (c : CourseRow) : Option ℚ :=
  if c.enrolled_users = 0 then none else some (c.completions / c.enrolled_users * 100)

/- ---------------------------------------------------------------- -/
/- Concrete example inputs                                           -/
/- ---------------------------------------------------------------- -/

/-- Three events of user 7 in course 42 within one calendar day, one of
them a submission (the §8 engagement scenario). -/
def c6logs : List LogRow :=
  [⟨1, 7, 42, 100, "view"⟩, ⟨2, 7, 42, 200, "submit"⟩, ⟨3, 7, 42, 300, "view"⟩]

/-- The single engagement row the scenario produces. -/
def c6row : EngRow := ⟨7, 42, 0, 3, 1, 6⟩

/-- One single non-submission event, used to compare the two engagement
scoring paths on the same input. -/
def c7logs : List LogRow := [⟨1, 1, 1, 0, "view"⟩]

/-- Two engagement rows, for two different users, with identical counts and
therefore identical engagement scores: a population whose maximum score
equals its minimum. -/
def c2rows : List EngRow := [⟨1, 1, 0, 1, 0, 2⟩, ⟨2, 1, 0, 1, 0, 2⟩]

/-- Two attempts of user 1 on quiz 1 arriving with the chronologically
later attempt (start 100) first in row order. -/
def c4df : List QuizAttemptRow := [⟨1, 1, 100, 200⟩, ⟨1, 1, 50, 90⟩]

/-- A single quiz attempt (a (user, quiz) group of size one). -/
def c4single : List QuizAttemptRow := [⟨1, 1, 50, 90⟩]

/-- The processed form of the single attempt of `c4single`. -/
def c4row : ProcessedQuizRow := ⟨⟨1, 1, 50, 90⟩, 2/3, 1, true, true⟩

/-- A root post and a reply to it by the same user (user 5 answering their
own post). -/
def c3posts : List ForumPostRow :=
  [⟨1, 5, 0, 0, false⟩, ⟨2, 5, 1, 7200, true⟩]

/-- A root post by user 10 at t = 0 and one reply by user 20 two hours
later (the §8 forum scenario). -/
def c5posts : List ForumPostRow :=
  [⟨1, 10, 0, 0, false⟩, ⟨2, 20, 1, 7200, true⟩]

/-- The root post of `c5posts`. -/
def c5root : ForumPostRow := ⟨1, 10, 0, 0, false⟩

/-- The reply post of `c5posts`. -/
def c5reply : ForumPostRow := ⟨2, 20, 1, 7200, true⟩

/-- Two one-row engagement groups with distinct scores 1 and 2. -/
def c1rows : List SampleEngRow :=
  [⟨1, 1, 0, 1, 0, 1, 2, 1⟩, ⟨2, 1, 0, 1, 0, 1, 2, 2⟩]

/-- The score row `calculate_student_engagement_scores` produces from the
engagement metrics of `c7logs` (a single one-event group, so the min-max
denominator degenerates and the normalized column is NaN). -/
def c7scoreRow : ScoreRow := ⟨1, 1, 1, 1, 0, 2, 0.9, none⟩

/-- The sample engagement row `create_sample_engagement_metrics` produces
from `c7logs`. -/
def c7sampleRow : SampleEngRow := ⟨1, 1, 0, 1, 0, 1, 2, 0.8⟩

/-- The first risk row `generate_sample_risk_analysis` produces from
`c1rows`: group mean 1 ranks at percentile 50 within the population
[1, 2], landing in the Medium Risk bin. -/
def c1row1 : RiskRow := ⟨1, 1, 1, 1, 0, 2, 50, some "Medium Risk"⟩

/-- A course with zero enrollments and zero completions. -/
def c8zero : CourseRow := ⟨"Empty Course", 0, 0⟩

/-- A course with 4 enrollments and 3 completions. -/
def c8full : CourseRow := ⟨"Full Course", 4, 3⟩

/- ---------------------------------------------------------------- -/
/- Theorems                                                          -/
/- ---------------------------------------------------------------- -/

/-- Claim C2 (code evaluation at the failing input): on a population whose
engagement scores are all equal, `calculate_student_engagement_scores`
normalizes every row to `(score - min) / (max - min) * 100` with
`max - min = 0`, i.e. to the float NaN (`none`), not to 0 as the
specification requires. -/
theorem C2_constant_scores_normalize_to_NaN :
    (calculate_student_engagement_scores c2rows).map (·.engagement_score_normalized)
      = [none, none] ∧
    (calculate_student_engagement_scores c2rows).map (·.engagement_score_normalized)
      ≠ [some 0, some 0] := by
  with_unfolding_all decide

/-- Claim C3 (code evaluation at the failing input): a user replying to
their own post makes `analyze_forum_interaction_network` add a self-loop
edge — the edge guard checks only that the parent resolves, not that the
parent's author differs — so the self-loop count of the resulting graph is
1, not 0. -/
theorem C3_self_reply_creates_self_loop :
    forumEdges c3posts = [(5, 5)] ∧
    ((forumEdges c3posts).filter fun e => decide (e.1 = e.2)).length = 1 := by
  decide

/-- Claim C9 (code evaluation at the failing input): on empty input the
engagement score builder and the risk analysis return empty tables, but
`cluster_students_by_behavior` hands the empty feature matrix to
`StandardScaler.fit_transform`, which raises, so the clustering stage does
not degrade to an empty result. -/
theorem C9_empty_input_behavior :
    calculate_student_engagement_scores ([] : List EngRow) = [] ∧
    generate_sample_risk_analysis ([] : List SampleEngRow) = [] ∧
    cluster_students_by_behavior ([] : List BehaviorRow) 4
      = Except.error "Found array with 0 sample(s) while a minimum of 1 is required" := by
  exact ⟨rfl, rfl, rfl⟩

/-- Claim C10: both `categorize_action` variants are total with fixed
substring priority — any action name containing `viewed`
(case-insensitively) is categorized `view` regardless of what else it
contains, a name matching none of the known substrings is categorized
`other`, and the result is always exactly one of the five categories. -/
theorem C10_categorize_action_priority (a : String) :
    (strContains a "viewed" = true →
      categorize_action a = "view" ∧ categorize_action_sample a = "view") ∧
    (strContains a "viewed" = false → strContains a "submitted" = false →
      strContains a "created" = false → strContains a "updated" = false →
      categorize_action a = "other" ∧ categorize_action_sample a = "other") ∧
    (categorize_action a = "view" ∨ categorize_action a = "submit" ∨
      categorize_action a = "create" ∨ categorize_action a = "update" ∨
      categorize_action a = "other") ∧
    (categorize_action_sample a = "view" ∨ categorize_action_sample a = "submit" ∨
      categorize_action_sample a = "update" ∨ categorize_action_sample a = "other") := by
  refine ⟨fun h => ?_, fun h1 h2 h3 h4 => ?_, ?_, ?_⟩
  · simp [categorize_action, categorize_action_sample, h]
  · simp [categorize_action, categorize_action_sample, h1, h2, h3, h4]
  · unfold categorize_action
    split_ifs <;> simp
  · unfold categorize_action_sample
    split_ifs <;> simp

/-- Witness for C10 at two concrete action names: a name containing both
`submitted` and `viewed` is categorized `view` by both variants, and a
name containing none of the four substrings is categorized `other`. -/
theorem C10_categorize_action_priority_witness :
    (categorize_action "assign_submitted_VIEWED" = "view" ∧
      categorize_action_sample "assign_submitted_VIEWED" = "view") ∧
    (categorize_action "course_started" = "other" ∧
      categorize_action_sample "course_started" = "other") :=
  ⟨(C10_categorize_action_priority "assign_submitted_VIEWED").1 (by decide),
   (C10_categorize_action_priority "course_started").2.1
     (by decide) (by decide) (by decide) (by decide)⟩

/-- Claim C7: the two engagement scoring paths implement the two divergent
weightings and are not equivalent — every row of
`calculate_student_engagement_scores` carries
`0.3·total_actions + 0.4·submissions + 0.3·active_minutes`, every row of
`create_sample_engagement_metrics` carries
`0.4·total_actions + 0.4·submissions + 0.2·active_minutes`, and on the
one-event input `c7logs` (nonzero `total_actions`) the two paths produce
the different scores 0.9 and 0.8. -/
theorem C7_divergent_weightings :
    (∀ rows : List EngRow, ∀ e ∈ calculate_student_engagement_scores rows,
      e.engagement_score
        = e.total_actions * 0.3 + e.total_submissions * 0.4 + e.total_active_minutes * 0.3) ∧
    (∀ logs : List LogRow, ∀ e ∈ create_sample_engagement_metrics logs,
      e.engagement_score
        = (e.total_actions : ℚ) * 0.4 + (e.submissions : ℚ) * 0.4 +
          (e.active_minutes : ℚ) * 0.2) ∧
    (calculate_student_engagement_scores (create_engagement_metrics c7logs)).map
        (·.engagement_score) = [0.9] ∧
    (create_sample_engagement_metrics c7logs).map (·.engagement_score) = [0.8] ∧
    (0.9 : ℚ) ≠ 0.8 := by
  have hb : ∀ rows : List EngRow, ∀ b ∈ scoreBase rows,
      b.engagement_score
        = b.total_actions * 0.3 + b.total_submissions * 0.4 + b.total_active_minutes * 0.3 := by
    intro rows b hbmem
    rcases List.mem_map.1 hbmem with ⟨k, _, rfl⟩
    rfl
  refine ⟨?_, ?_, by with_unfolding_all decide, by with_unfolding_all decide,
    by with_unfolding_all decide⟩
  · intro rows e he
    simp only [calculate_student_engagement_scores] at he
    split at he
    · rcases List.mem_map.1 he with ⟨b, hbm, rfl⟩
      exact hb rows b hbm
    · exact hb rows e he
  · intro logs e he
    rcases List.mem_map.1 he with ⟨k, _, rfl⟩
    rfl

/-- Witness for C7: the per-row weighting identities applied to the
concrete rows the two paths produce from `c7logs`. -/
theorem C7_divergent_weightings_witness :
    c7scoreRow.engagement_score
      = c7scoreRow.total_actions * 0.3 + c7scoreRow.total_submissions * 0.4 +
        c7scoreRow.total_active_minutes * 0.3 ∧
    c7sampleRow.engagement_score
      = (c7sampleRow.total_actions : ℚ) * 0.4 + (c7sampleRow.submissions : ℚ) * 0.4 +
        (c7sampleRow.active_minutes : ℚ) * 0.2 :=
  ⟨C7_divergent_weightings.1 (create_engagement_metrics c7logs) c7scoreRow
      (by with_unfolding_all decide),
   C7_divergent_weightings.2.1 c7logs c7sampleRow (by with_unfolding_all decide)⟩

/-- Helper: the key triples carried by the rows of
`create_engagement_metrics` are exactly the deduplicated grouping keys of
the input logs. -/
theorem create_engagement_metrics_keys (logs : List LogRow) :
    (create_engagement_metrics logs).map (fun e => (e.userid, e.courseid, e.bucket))
      = (logs.map engKey).dedup := by
  unfold create_engagement_metrics
  rw [List.map_map]
  have h : ∀ k ∈ (logs.map engKey).dedup,
      ((fun e : EngRow => (e.userid, e.courseid, e.bucket)) ∘ engRowOf logs) k = id k := by
    intro k _
    obtain ⟨a, b, c⟩ := k
    rfl
  rw [List.map_congr_left h, List.map_id]

/-- Claim C6: `create_engagement_metrics` groups by
(user, course, day bucket) with exactly one output row per distinct key
appearing in the input; within each group `total_actions` counts the
events, `submissions` counts the events categorized `"submit"`, and
`active_minutes = total_actions * 2`. -/
theorem C6_engagement_grouping (logs : List LogRow) (e : EngRow)
    (he : e ∈ create_engagement_metrics logs) :
    ((create_engagement_metrics logs).map fun x => (x.userid, x.courseid, x.bucket)).Nodup ∧
    (∀ r ∈ logs,
      engKey r ∈ (create_engagement_metrics logs).map fun x => (x.userid, x.courseid, x.bucket)) ∧
    e.total_actions
      = (logs.filter fun r => decide (engKey r = (e.userid, e.courseid, e.bucket))).length ∧
    e.submissions
      = ((logs.filter fun r => decide (engKey r = (e.userid, e.courseid, e.bucket))).filter
          fun r => decide (r.action_category = "submit")).length ∧
    e.active_minutes = e.total_actions * 2 := by
  refine ⟨?_, ?_, ?_⟩
  · rw [create_engagement_metrics_keys]
    exact (logs.map engKey).nodup_dedup
  · intro r hr
    rw [create_engagement_metrics_keys]
    exact List.mem_dedup.2 (List.mem_map_of_mem engKey hr)
  · rcases List.mem_map.1 he with ⟨k, _, rfl⟩
    obtain ⟨a, b, c⟩ := k
    exact ⟨rfl, rfl, rfl⟩

/-- Witness for C6 at the §8 scenario input: three same-day events of
user 7 in course 42 with one submission produce exactly the single row
(total_actions 3, submissions 1, active_minutes 6). -/
theorem C6_engagement_grouping_witness :
    (((create_engagement_metrics c6logs).map fun x => (x.userid, x.courseid, x.bucket)).Nodup ∧
      (∀ r ∈ c6logs,
        engKey r ∈ (create_engagement_metrics c6logs).map fun x => (x.userid, x.courseid, x.bucket)) ∧
      c6row.total_actions
        = (c6logs.filter fun r => decide (engKey r = (c6row.userid, c6row.courseid, c6row.bucket))).length ∧
      c6row.submissions
        = ((c6logs.filter fun r => decide (engKey r = (c6row.userid, c6row.courseid, c6row.bucket))).filter
            fun r => decide (r.action_category = "submit")).length ∧
      c6row.active_minutes = c6row.total_actions * 2) ∧
    create_engagement_metrics c6logs = [c6row] :=
  ⟨C6_engagement_grouping c6logs c6row (by decide), by decide⟩

/-- Helper: folding from a `some` accumulator never yields `none`. -/
theorem pickEarliest_ne_none (l : List ForumPostRow) :
    ∀ q, pickEarliest (some q) l ≠ none := by
  induction l with
  | nil => intro q h; cases h
  | cons p rest ih => intro q; exact ih _

/-- Helper: folding from the empty accumulator yields `none` exactly on the
empty list. -/
theorem pickEarliest_none_eq_none_iff (l : List ForumPostRow) :
    pickEarliest none l = none ↔ l = [] := by
  cases l with
  | nil => simp [pickEarliest]
  | cons p rest =>
    constructor
    · intro h
      exact absurd h (pickEarliest_ne_none rest p)
    · intro h
      cases h

/-- Helper: the result of the fold is either the accumulator or an element
of the list, and its `created` is minimal among both. -/
theorem pickEarliest_some_spec (l : List ForumPostRow) :
    ∀ q r, pickEarliest (some q) l = some r →
      (r = q ∨ r ∈ l) ∧ r.created ≤ q.created ∧ ∀ c ∈ l, r.created ≤ c.created := by
  induction l with
  | nil =>
    intro q r h
    obtain rfl : q = r := by injection h
    exact ⟨Or.inl rfl, le_refl _, fun c hc => absurd hc (List.not_mem_nil c)⟩
  | cons p rest ih =>
    intro q r h
    simp only [pickEarliest] at h
    obtain ⟨hmem, hle, hall⟩ := ih (if p.created < q.created then p else q) r h
    by_cases hpq : p.created < q.created
    · rw [if_pos hpq] at hmem hle
      refine ⟨?_, le_trans hle (le_of_lt hpq), ?_⟩
      · rcases hmem with rfl | hm
        · exact Or.inr (List.mem_cons_self _ _)
        · exact Or.inr (List.mem_cons_of_mem _ hm)
      · intro c hc
        rcases List.mem_cons.1 hc with rfl | hc'
        · exact hle
        · exact hall c hc'
    · rw [if_neg hpq] at hmem hle
      refine ⟨?_, hle, ?_⟩
      · rcases hmem with rfl | hm
        · exact Or.inl rfl
        · exact Or.inr (List.mem_cons_of_mem _ hm)
      · intro c hc
        rcases List.mem_cons.1 hc with rfl | hc'
        · exact le_trans hle (not_lt.1 hpq)
        · exact hall c hc'

/-- Helper: a post returned by `firstReply df rid` is a child of `rid`
belonging to `df` with minimal creation time among the children. -/
theorem firstReply_spec (df : List ForumPostRow) (rid : Nat) (r : ForumPostRow)
    (h : firstReply df rid = some r) :
    r.parent = rid ∧ r ∈ df ∧ ∀ c ∈ df, c.parent = rid → r.created ≤ c.created := by
  unfold firstReply at h
  cases hl : df.filter (fun p => decide (p.parent = rid)) with
  | nil =>
    rw [hl] at h
    cases h
  | cons p rest =>
    rw [hl] at h
    simp only [pickEarliest] at h
    obtain ⟨hmem, hle, hall⟩ := pickEarliest_some_spec rest p r h
    have hrmem : r ∈ df.filter (fun p => decide (p.parent = rid)) := by
      rw [hl]
      rcases hmem with rfl | hm
      · exact List.mem_cons_self _ _
      · exact List.mem_cons_of_mem _ hm
    have h1 := List.mem_filter.1 hrmem
    refine ⟨by simpa using h1.2, h1.1, ?_⟩
    intro c hc hcp
    have hcf : c ∈ df.filter (fun p => decide (p.parent = rid)) :=
      List.mem_filter.2 ⟨hc, by simpa using hcp⟩
    rw [hl] at hcf
    rcases List.mem_cons.1 hcf with rfl | hc'
    · exact hle
    · exact hall c hc'

/-- Helper: `firstReply` is `none` exactly when no post of `df` has parent
`rid`. -/
theorem firstReply_eq_none_iff (df : List ForumPostRow) (rid : Nat) :
    firstReply df rid = none ↔ ∀ c ∈ df, c.parent ≠ rid := by
  unfold firstReply
  rw [pickEarliest_none_eq_none_iff, List.filter_eq_nil_iff]
  simp

/-- Claim C5: `_calculate_reply_times` produces one value per input row;
a reply whose parent id resolves gets (own created − parent created) in
hours; a reply whose parent id matches no post gets NaN; a root post with
children gets (earliest child created − own created) in hours; a root post
without children gets NaN. -/
theorem C5_reply_times (df : List ForumPostRow) (row : ForumPostRow) :
    ((calculate_reply_times df).length = df.length) ∧
    (∀ p, 0 < row.parent → findParent df row.parent = some p →
      hoursToFirstReply df row = some (((row.created - p.created : Int) : ℚ) / 3600) ∧
      p.id = row.parent ∧ p ∈ df) ∧
    (0 < row.parent → (∀ q ∈ df, q.id ≠ row.parent) →
      hoursToFirstReply df row = none) ∧
    (∀ r, ¬ 0 < row.parent → firstReply df row.id = some r →
      hoursToFirstReply df row = some (((r.created - row.created : Int) : ℚ) / 3600) ∧
      r.parent = row.id ∧ r ∈ df ∧ ∀ c ∈ df, c.parent = row.id → r.created ≤ c.created) ∧
    (¬ 0 < row.parent → (∀ c ∈ df, c.parent ≠ row.id) →
      hoursToFirstReply df row = none) := by
  refine ⟨?_, ?_, ?_, ?_, ?_⟩
  · unfold calculate_reply_times
    exact List.length_map df _
  · intro p hpos hfind
    unfold hoursToFirstReply
    rw [if_pos hpos, hfind]
    refine ⟨rfl, ?_, List.mem_of_find?_eq_some hfind⟩
    have := List.find?_some hfind
    simpa using this
  · intro hpos hnone
    unfold hoursToFirstReply
    rw [if_pos hpos]
    have : findParent df row.parent = none := by
      unfold findParent
      rw [List.find?_eq_none]
      intro x hx
      simpa using hnone x hx
    rw [this]
  · intro r hpos hfr
    unfold hoursToFirstReply
    rw [if_neg hpos, hfr]
    exact ⟨rfl, firstReply_spec df row.id r hfr⟩
  · intro hpos hnone
    unfold hoursToFirstReply
    rw [if_neg hpos]
    have : firstReply df row.id = none := (firstReply_eq_none_iff df row.id).2 hnone
    rw [this]

/-- Witness for C5 at the §8 scenario: root post (user 10, t = 0) with a
single reply (user 20, t = 7200 s); both posts get 2.0 hours, and the
batch has one value per row. -/
theorem C5_reply_times_witness :
    hoursToFirstReply c5posts c5reply = some 2 ∧
    hoursToFirstReply c5posts c5root = some 2 ∧
    (calculate_reply_times c5posts).length = c5posts.length := by
  refine ⟨?_, ?_, (C5_reply_times c5posts c5reply).1⟩
  · have h := ((C5_reply_times c5posts c5reply).2.1 c5root (by decide) (by decide)).1
    rw [h]
    with_unfolding_all decide
  · have h := ((C5_reply_times c5posts c5root).2.2.2.1 c5reply (by decide) (by decide)).1
    rw [h]
    with_unfolding_all decide

/-- Counterexample for C8: for a course with zero enrollments the
per-course completion rate is the float NaN (`none`) in both dashboard
computations, not 0 as the claim states. -/
theorem C8_counterexample :
    courseCompletionRatio c8zero ≠ some 0 ∧
    courseCompletionRatio c8zero = none ∧
    topCourseCompletionRate c8zero = none := by
  with_unfolding_all decide

/-- Claim C8 as amended: `completion_rate = completions / enrollments`,
but a zero-enrollment course yields an undefined (NaN/inf) per-course
rate — it is excluded from the displayed average, which itself falls back
to 0 when no course has nonzero enrollment — and no exception is raised
(the functions are total); for `enrollments ≥ completions ≥ 0` with
`enrollments > 0` the rate lies in [0, 1]. -/
theorem C8_completion_rate_amended (c : CourseRow) (courses : List CourseRow) :
    (c.enrolled_users = 0 →
      courseCompletionRatio c = none ∧ topCourseCompletionRate c = none) ∧
    (0 < c.enrolled_users → 0 ≤ c.completions → c.completions ≤ c.enrolled_users →
      courseCompletionRatio c = some (c.completions / c.enrolled_users) ∧
      0 ≤ c.completions / c.enrolled_users ∧ c.completions / c.enrolled_users ≤ 1) ∧
    ((∀ d ∈ courses, d.enrolled_users = 0) → avgCompletionRate courses = 0) := by
  refine ⟨fun h => ?_, fun h1 h2 h3 => ?_, fun h => ?_⟩
  · constructor
    · unfold courseCompletionRatio
      rw [if_pos h]
    · unfold topCourseCompletionRate
      rw [if_pos h]
  · refine ⟨?_, div_nonneg h2 (le_of_lt h1), (div_le_one h1).2 h3⟩
    unfold courseCompletionRatio
    rw [if_neg (ne_of_gt h1)]
  · have hnil : courses.filterMap courseCompletionRatio = [] := by
      rw [List.filterMap_eq_nil_iff]
      intro d hd
      unfold courseCompletionRatio
      rw [if_pos (h d hd)]
    unfold avgCompletionRate
    rw [hnil]
    rfl

/-- Witness for C8 at concrete courses: the zero-enrollment course is
undefined in both computations, a 3-of-4 course has rate 3/4 inside
[0, 1], and the average over only zero-enrollment courses falls back
to 0. -/
theorem C8_completion_rate_amended_witness :
    (courseCompletionRatio c8zero = none ∧ topCourseCompletionRate c8zero = none) ∧
    (courseCompletionRatio c8full = some (c8full.completions / c8full.enrolled_users) ∧
      0 ≤ c8full.completions / c8full.enrolled_users ∧
      c8full.completions / c8full.enrolled_users ≤ 1) ∧
    avgCompletionRate [c8zero] = 0 :=
  ⟨(C8_completion_rate_amended c8zero []).1 rfl,
   (C8_completion_rate_amended c8full []).2.1
     (by norm_num [c8full]) (by norm_num [c8full]) (by norm_num [c8full]),
   (C8_completion_rate_amended c8zero [c8zero]).2.2
     (by intro d hd; rw [List.mem_singleton.1 hd]; rfl)⟩

/-- Helper: the values below `s` and the values equal to `s` partition the
values at most `s`. -/
theorem filter_lt_add_filter_eq (xs : List ℚ) (s : ℚ) :
    (xs.filter fun y => decide (y < s)).length + (xs.filter fun y => decide (y = s)).length
      = (xs.filter fun y => decide (y ≤ s)).length := by
  induction xs with
  | nil => simp
  | cons a t ih =>
    rcases lt_trichotomy a s with h | h | h
    · simp only [List.filter_cons, decide_eq_true_eq]
      rw [if_pos h, if_neg (ne_of_lt h), if_pos h.le]
      simp only [List.length_cons]
      omega
    · simp only [List.filter_cons, decide_eq_true_eq]
      rw [if_neg (by simp [h]), if_pos h, if_pos (le_of_eq h)]
      simp only [List.length_cons]
      omega
    · simp only [List.filter_cons, decide_eq_true_eq]
      rw [if_neg (not_lt.2 h.le), if_neg (ne_of_gt h), if_neg (not_le.2 h)]
      exact ih

/-- Helper: the averaged-ties percentile rank of a member of the
population is strictly positive and at most 100. -/
theorem pctRank_bounds (xs : List ℚ) (s : ℚ) (hs : s ∈ xs) :
    0 < pctRank xs s ∧ pctRank xs s ≤ 100 := by
  have hN : 0 < (xs.length : ℚ) := by
    exact_mod_cast List.length_pos.2 (List.ne_nil_of_mem hs)
  have hEqmem : s ∈ xs.filter fun y => decide (y = s) :=
    List.mem_filter.2 ⟨hs, by simp⟩
  have hEq : 1 ≤ ((xs.filter fun y => decide (y = s)).length : ℚ) := by
    exact_mod_cast List.length_pos.2 (List.ne_nil_of_mem hEqmem)
  have hLe : ((xs.filter fun y => decide (y < s)).length : ℚ)
      + ((xs.filter fun y => decide (y = s)).length : ℚ) ≤ (xs.length : ℚ) := by
    have h1 := List.length_filter_le (fun y => decide (y ≤ s)) xs
    have h2 := filter_lt_add_filter_eq xs s
    exact_mod_cast h2 ▸ h1
  have hLT : (0:ℚ) ≤ ((xs.filter fun y => decide (y < s)).length : ℚ) := Nat.cast_nonneg _
  unfold pctRank
  constructor
  · apply mul_pos _ (by norm_num)
    apply div_pos _ hN
    linarith
  · have hA : ((xs.filter fun y => decide (y < s)).length : ℚ)
        + (((xs.filter fun y => decide (y = s)).length : ℚ) + 1) / 2 ≤ (xs.length : ℚ) := by
      linarith
    have h1 := (div_le_one hN).2 hA
    linarith

/-- Helper: a row of the risk table carries the group-mean score, which
belongs to the ranked population, and its percentile and risk level are
computed from it. -/
theorem mem_generate_sample_risk_analysis (rows : List SampleEngRow) (r : RiskRow)
    (hr : r ∈ generate_sample_risk_analysis rows) :
    r.engagement_score ∈ riskScores rows ∧
    r.engagement_percentile = pctRank (riskScores rows) r.engagement_score ∧
    r.risk_level = riskCut r.engagement_percentile := by
  unfold generate_sample_risk_analysis at hr
  rcases List.mem_map.1 hr with ⟨g, hg, rfl⟩
  exact ⟨List.mem_map_of_mem _ hg, rfl, rfl⟩

/-- Claim C1: for every row of `generate_sample_risk_analysis`, the
engagement percentile is the averaged-ties percentile rank of the row's
engagement score within the population and lies in (0, 100] ⊆ [0, 100];
the `pd.cut` binning is total on [0, 100] and non-overlapping, with
right-inclusive bins [0,25] → High, (25,50] → Medium, (50,75] → Low,
(75,100] → Very Low, the boundary values resolving to the lower tier. -/
theorem C1_risk_tiering (rows : List SampleEngRow) (r : RiskRow)
    (hr : r ∈ generate_sample_risk_analysis rows) (p : ℚ) (h0 : 0 ≤ p) (h100 : p ≤ 100) :
    (r.engagement_percentile = pctRank (riskScores rows) r.engagement_score ∧
      r.risk_level = riskCut r.engagement_percentile ∧
      0 < r.engagement_percentile ∧ r.engagement_percentile ≤ 100) ∧
    ((riskCut p).isSome = true ∧
      (riskCut p = some "High Risk" ↔ p ≤ 25) ∧
      (riskCut p = some "Medium Risk" ↔ 25 < p ∧ p ≤ 50) ∧
      (riskCut p = some "Low Risk" ↔ 50 < p ∧ p ≤ 75) ∧
      (riskCut p = some "Very Low Risk" ↔ 75 < p ∧ p ≤ 100)) := by
  obtain ⟨hmem, hpct, hlvl⟩ := mem_generate_sample_risk_analysis rows r hr
  obtain ⟨hpos, hle⟩ := pctRank_bounds _ _ hmem
  refine ⟨⟨hpct, hlvl, ?_, ?_⟩, ?_⟩
  · rw [hpct]; exact hpos
  · rw [hpct]; exact hle
  unfold riskCut
  split_ifs with h1 h2 h3 h4
  · exact absurd h1 (not_lt.2 h0)
  · exact ⟨rfl, iff_of_true rfl h2,
      iff_of_false (by decide) (fun hq => absurd hq.1 (not_lt.2 h2)),
      iff_of_false (by decide) (fun hq => absurd hq.1 (not_lt.2 (by linarith))),
      iff_of_false (by decide) (fun hq => absurd hq.1 (not_lt.2 (by linarith)))⟩
  · exact ⟨rfl, iff_of_false (by decide) (fun hq => absurd hq h2),
      iff_of_true rfl ⟨not_le.1 h2, h3⟩,
      iff_of_false (by decide) (fun hq => absurd hq.1 (not_lt.2 h3)),
      iff_of_false (by decide) (fun hq => absurd hq.1 (not_lt.2 (by linarith)))⟩
  · exact ⟨rfl, iff_of_false (by decide) (fun hq => absurd hq (by linarith [not_le.1 h3])),
      iff_of_false (by decide) (fun hq => absurd hq.2 h3),
      iff_of_true rfl ⟨not_le.1 h3, h4⟩,
      iff_of_false (by decide) (fun hq => absurd hq.1 (not_lt.2 h4))⟩
  · exact ⟨rfl, iff_of_false (by decide) (fun hq => absurd hq (by linarith [not_le.1 h4])),
      iff_of_false (by decide) (fun hq => absurd hq.2 (by linarith [not_le.1 h4])),
      iff_of_false (by decide) (fun hq => absurd hq.2 h4),
      iff_of_true rfl ⟨not_le.1 h4, h100⟩⟩

/-- Witness for C1 at the two-group population `c1rows`: the group with
mean score 1 ranks at percentile 50 (Medium Risk), the boundary value 25
falls in the High Risk bin, and the produced risk levels are Medium and
Very Low. -/
theorem C1_risk_tiering_witness :
    ((c1row1.engagement_percentile = pctRank (riskScores c1rows) c1row1.engagement_score ∧
      c1row1.risk_level = riskCut c1row1.engagement_percentile ∧
      0 < c1row1.engagement_percentile ∧ c1row1.engagement_percentile ≤ 100) ∧
    ((riskCut 25).isSome = true ∧
      (riskCut 25 = some "High Risk" ↔ (25:ℚ) ≤ 25) ∧
      (riskCut 25 = some "Medium Risk" ↔ (25:ℚ) < 25 ∧ (25:ℚ) ≤ 50) ∧
      (riskCut 25 = some "Low Risk" ↔ (50:ℚ) < 25 ∧ (25:ℚ) ≤ 75) ∧
      (riskCut 25 = some "Very Low Risk" ↔ (75:ℚ) < 25 ∧ (25:ℚ) ≤ 100))) ∧
    (generate_sample_risk_analysis c1rows).map (·.risk_level)
      = [some "Medium Risk", some "Very Low Risk"] :=
  ⟨C1_risk_tiering c1rows c1row1 (by with_unfolding_all decide) 25
      (by norm_num) (by norm_num),
   by with_unfolding_all decide⟩

/-- Helper: `keyCount` distributes over list append. -/
theorem keyCount_append (l1 l2 : List QuizAttemptRow) (k : Nat × Nat) :
    keyCount (l1 ++ l2) k = keyCount l1 k + keyCount l2 k := by
  unfold keyCount
  rw [List.filter_append, List.length_append]

/-- Helper: `keyCount` of a cons. -/
theorem keyCount_cons (r : QuizAttemptRow) (l : List QuizAttemptRow) (k : Nat × Nat) :
    keyCount (r :: l) k = (if quizKey r = k then 1 else 0) + keyCount l k := by
  by_cases h : quizKey r = k
  · simp [keyCount, List.filter_cons, h]
    omega
  · simp [keyCount, List.filter_cons, h]

/-- Helper: the attempt numbers of the rows of one (userid, quiz) group are
consecutive, starting one past the number of occurrences of the key in the
already-numbered prefix. -/
theorem cumcount_group (df : List QuizAttemptRow) :
    ∀ (seen : List QuizAttemptRow) (k : Nat × Nat),
      ((cumcountFrom seen df).filter fun p => decide (quizKey p.1 = k)).map Prod.snd
        = natSeq (keyCount seen k + 1) (keyCount df k) := by
  induction df with
  | nil =>
    intro seen k
    simp [cumcountFrom, keyCount, natSeq]
  | cons r rest ih =>
    intro seen k
    by_cases h : quizKey r = k
    · subst h
      have h1 : keyCount (r :: rest) (quizKey r) = keyCount rest (quizKey r) + 1 := by
        rw [keyCount_cons, if_pos rfl]
        omega
      have h2 : keyCount (seen ++ [r]) (quizKey r) = keyCount seen (quizKey r) + 1 := by
        rw [keyCount_append]
        have h3 : keyCount [r] (quizKey r) = 1 := by
          simp [keyCount, List.filter_cons]
        rw [h3]
      simp only [cumcountFrom, List.filter_cons, decide_eq_true_eq]
      rw [if_pos trivial]
      simp only [List.map_cons]
      rw [ih (seen ++ [r]) (quizKey r), h1, h2]
      rfl
    · have h1 : keyCount (r :: rest) k = keyCount rest k := by
        rw [keyCount_cons, if_neg h]
        omega
      have h2 : keyCount (seen ++ [r]) k = keyCount seen k := by
        rw [keyCount_append]
        have h3 : keyCount [r] k = 0 := by
          simp [keyCount, List.filter_cons, h]
        rw [h3]
        omega
      simp only [cumcountFrom, List.filter_cons, decide_eq_true_eq]
      rw [if_neg h]
      rw [ih (seen ++ [r]) k, h1, h2]

/-- Helper: length of `natSeq`. -/
theorem natSeq_length (n : Nat) : ∀ s, (natSeq s n).length = n := by
  induction n with
  | zero => intro s; rfl
  | succ m ih =>
    intro s
    simp only [natSeq, List.length_cons, ih (s + 1)]

/-- Helper: the maximum of `natSeq s n` (folded with default 0) is its last
element `s + n - 1`, or 0 when the sequence is empty. -/
theorem foldr_max_natSeq (n : Nat) : ∀ s, (natSeq s n).foldr max 0 = if n = 0 then 0 else s + n - 1 := by
  induction n with
  | zero => intro s; rfl
  | succ m ih =>
    intro s
    simp only [natSeq, List.foldr_cons]
    rw [ih (s + 1)]
    by_cases hm : m = 0
    · subst hm
      simp
    · rw [if_neg hm, if_neg (Nat.succ_ne_zero m)]
      have hle : s ≤ s + 1 + m - 1 := by omega
      rw [Nat.max_eq_right hle]
      omega

/-- Helper: each value occurs at most once in `natSeq`, exactly once when
it lies in the covered range. -/
theorem natSeq_filter_eq (x n : Nat) : ∀ s,
    ((natSeq s n).filter fun y => decide (y = x)).length
      = if s ≤ x ∧ x < s + n then 1 else 0 := by
  induction n with
  | zero =>
    intro s
    rw [if_neg (by omega)]
    rfl
  | succ m ih =>
    intro s
    simp only [natSeq, List.filter_cons]
    by_cases hs : s = x
    · subst hs
      rw [if_pos (by simp)]
      simp only [List.length_cons]
      rw [ih (s + 1), if_neg (by omega), if_pos (by omega)]
    · rw [if_neg (by simpa using hs)]
      rw [ih (s + 1)]
      by_cases h1 : s + 1 ≤ x
      · by_cases h2 : x < s + 1 + m
        · rw [if_pos ⟨h1, h2⟩, if_pos (by omega)]
        · rw [if_neg (fun hc => h2 hc.2), if_neg (fun hc => h2 (by omega))]
      · rw [if_neg (fun hc => h1 hc.1), if_neg (fun hc => h1 (by omega))]

/-- Helper: the rows of one (userid, quiz) group of `process_quiz_data` are
the processed forms of the numbered rows of that group. -/
theorem quizGroup_eq (df : List QuizAttemptRow) (k : Nat × Nat) :
    quizGroup df k
      = ((cumcountFrom [] df).filter fun p => decide (quizKey p.1 = k)).map
          (procRowOf (cumcountFrom [] df)) := by
  unfold quizGroup process_quiz_data
  rw [List.filter_map]
  congr 1

/-- Helper: one (userid, quiz) group of `process_quiz_data` carries the
attempt numbers 1, 2, ..., group size, in row order. -/
theorem quizGroup_numbers (df : List QuizAttemptRow) (k : Nat × Nat) :
    (quizGroup df k).map (·.attempt_number) = natSeq 1 (keyCount df k) := by
  rw [quizGroup_eq, List.map_map]
  have hcomp : ((fun x : ProcessedQuizRow => x.attempt_number)
      ∘ procRowOf (cumcountFrom [] df)) = Prod.snd := by
    funext p
    rfl
  rw [hcomp]
  exact cumcount_group df [] k

/-- Helper: the size of one group of `process_quiz_data` is the number of
input rows with that key. -/
theorem quizGroup_length (df : List QuizAttemptRow) (k : Nat × Nat) :
    (quizGroup df k).length = keyCount df k := by
  have h := congrArg List.length (quizGroup_numbers df k)
  rw [List.length_map, natSeq_length] at h
  exact h

/-- Helper: counting rows whose attempt number is a given value can be done
on the projected number list. -/
theorem length_filter_snd (l : List (QuizAttemptRow × Nat)) (x : Nat) :
    (l.filter fun p => decide (p.2 = x)).length
      = ((l.map Prod.snd).filter fun y => decide (y = x)).length := by
  rw [List.filter_map, List.length_map]
  congr 1

/-- Helper: exactly one row of a nonempty (userid, quiz) group has
`is_first_attempt` set. -/
theorem quizGroup_first_count (df : List QuizAttemptRow) (k : Nat × Nat) :
    ((quizGroup df k).filter fun x => x.is_first_attempt).length
      = if keyCount df k = 0 then 0 else 1 := by
  rw [quizGroup_eq, List.filter_map, List.length_map]
  have hc : ∀ p ∈ (cumcountFrom [] df).filter fun p => decide (quizKey p.1 = k),
      ((fun x : ProcessedQuizRow => x.is_first_attempt)
        ∘ procRowOf (cumcountFrom [] df)) p = decide (p.2 = 1) := fun p _ => rfl
  rw [List.filter_congr hc, length_filter_snd, cumcount_group df [] k, natSeq_filter_eq]
  have h0 : keyCount ([] : List QuizAttemptRow) k = 0 := rfl
  rw [h0]
  by_cases hm : keyCount df k = 0
  · rw [if_pos hm, if_neg (by omega)]
  · rw [if_neg hm, if_pos (by omega)]

/-- Helper: inside one group with key `k`, the per-row `transform('max')`
value equals the group size. -/
theorem quizGroup_max (df : List QuizAttemptRow) (k : Nat × Nat)
    (p : QuizAttemptRow × Nat)
    (hp : p ∈ (cumcountFrom [] df).filter fun p => decide (quizKey p.1 = k)) :
    (((cumcountFrom [] df).filter fun q => decide (quizKey q.1 = quizKey p.1)).map
        Prod.snd).foldr max 0 = keyCount df k := by
  have hk : quizKey p.1 = k := by
    have := (List.mem_filter.1 hp).2
    simpa using this
  have hmpos : 0 < keyCount df k := by
    have hlen := congrArg List.length (cumcount_group df [] k)
    rw [List.length_map, natSeq_length] at hlen
    have hppos : 0 < ((cumcountFrom [] df).filter fun p => decide (quizKey p.1 = k)).length :=
      List.length_pos.2 (List.ne_nil_of_mem hp)
    omega
  rw [hk, cumcount_group df [] k, foldr_max_natSeq]
  have h0 : keyCount ([] : List QuizAttemptRow) k = 0 := rfl
  rw [h0, if_neg (show ¬ keyCount df k = 0 by omega)]
  omega

/-- Helper: exactly one row of a nonempty (userid, quiz) group has
`is_last_attempt` set. -/
theorem quizGroup_last_count (df : List QuizAttemptRow) (k : Nat × Nat) :
    ((quizGroup df k).filter fun x => x.is_last_attempt).length
      = if keyCount df k = 0 then 0 else 1 := by
  rw [quizGroup_eq, List.filter_map, List.length_map]
  have hc : ∀ p ∈ (cumcountFrom [] df).filter fun p => decide (quizKey p.1 = k),
      ((fun x : ProcessedQuizRow => x.is_last_attempt)
        ∘ procRowOf (cumcountFrom [] df)) p = decide (p.2 = keyCount df k) := by
    intro p hp
    have hX := quizGroup_max df k p hp
    show decide (p.2 = _) = decide (p.2 = keyCount df k)
    rw [hX]
  rw [List.filter_congr hc, length_filter_snd, cumcount_group df [] k, natSeq_filter_eq]
  have h0 : keyCount ([] : List QuizAttemptRow) k = 0 := rfl
  rw [h0]
  by_cases hm : keyCount df k = 0
  · rw [if_pos hm, if_neg (by omega)]
  · rw [if_neg hm, if_pos (by omega)]

/-- Counterexample for C4: `process_quiz_data` assigns attempt numbers by
`cumcount` in input row order without sorting, so when the chronologically
later attempt (start 100) precedes the earlier one (start 50) in the
input, it receives ordinal 1 — the ordinals are not in chronological
order of the start times. -/
theorem C4_counterexample :
    ((process_quiz_data c4df).map fun p => (p.row.timestart, p.attempt_number))
      = [(100, 1), (50, 2)] ∧
    ¬ (∀ p ∈ process_quiz_data c4df, ∀ q ∈ process_quiz_data c4df,
        p.row.timestart < q.row.timestart → p.attempt_number < q.attempt_number) := by
  with_unfolding_all decide

/-- Claim C4 as amended: for every (user, quiz) group of size N produced
by `process_quiz_data`, the attempt numbers are exactly 1, 2, ..., N in
input row order (chronological only when the input rows arrive sorted by
start time); exactly one row of a nonempty group has `is_first_attempt`
and exactly one has `is_last_attempt`, and when N = 1 the single row has
both flags. -/
theorem C4_quiz_ordinals_amended (df : List QuizAttemptRow) (k : Nat × Nat) :
    (quizGroup df k).map (·.attempt_number) = natSeq 1 (quizGroup df k).length ∧
    ((quizGroup df k).filter fun x => x.is_first_attempt).length
      = (if (quizGroup df k).length = 0 then 0 else 1) ∧
    ((quizGroup df k).filter fun x => x.is_last_attempt).length
      = (if (quizGroup df k).length = 0 then 0 else 1) ∧
    ((quizGroup df k).length = 1 →
      ∀ x ∈ quizGroup df k, x.is_first_attempt = true ∧ x.is_last_attempt = true) := by
  have hlen : (quizGroup df k).length = keyCount df k := quizGroup_length df k
  refine ⟨?_, ?_, ?_, ?_⟩
  · rw [hlen]
    exact quizGroup_numbers df k
  · rw [hlen]
    exact quizGroup_first_count df k
  · rw [hlen]
    exact quizGroup_last_count df k
  · intro h1 x hx
    obtain ⟨a, ha⟩ := List.length_eq_one.1 h1
    have hk1 : keyCount df k = 1 := by omega
    have hxa : x = a := by
      rw [ha] at hx
      exact List.mem_singleton.1 hx
    subst hxa
    have hf := quizGroup_first_count df k
    have hl := quizGroup_last_count df k
    rw [hk1, if_neg one_ne_zero, ha] at hf hl
    constructor
    · by_cases hb : x.is_first_attempt = true
      · exact hb
      · exfalso
        rw [List.filter_cons, if_neg (by simpa using hb)] at hf
        simp at hf
    · by_cases hb : x.is_last_attempt = true
      · exact hb
      · exfalso
        rw [List.filter_cons, if_neg (by simpa using hb)] at hl
        simp at hl

/-- Witness for C4 at concrete inputs: the single-attempt group of
`c4single` carries both flags on its one row, and the two-attempt group of
`c4df` carries the ordinals [1, 2] in row order. -/
theorem C4_quiz_ordinals_amended_witness :
    (c4row.is_first_attempt = true ∧ c4row.is_last_attempt = true) ∧
    (quizGroup c4df (1, 1)).map (·.attempt_number) = natSeq 1 2 :=
  ⟨(C4_quiz_ordinals_amended c4single (1, 1)).2.2.2 (by decide) c4row
      (by with_unfolding_all decide),
   ((C4_quiz_ordinals_amended c4df (1, 1)).1).trans (by decide)⟩
